import Mathlib

/-!
Verification of the Flyer Spec Synthesizer (src/main.py).

The repository is a small FastAPI service: a pydantic model `FlyerInput`
validates the request, and two pure functions `build_generation_prompt`
and `build_editing_tasks` synthesize the response strings.  We embed the
data model, the validation performed by pydantic on the declared field
types and bounds, and the two synthesizers, working over Lean `String`
(a sequence of unicode scalar values, matching Python's code-point
string semantics for the operations used: concatenation, slicing,
`str.replace`, `"\n".join`, `len`).
-/

/-- The validated request model (pydantic `FlyerInput`, src/main.py lines
18-25).  All seven fields are required; `SECONDARY_IMAGES_COUNT` is an
integer constrained by `ge=0, le=12` at validation time (the field itself
is an unrestricted integer once constructed). -/
structure FlyerInput where
  EVENT_TITLE : String
  EVENT_TYPE : String
  LOCALITY : String
  MAIN_IMAGE_ID : String
  SECONDARY_IMAGES_COUNT : Int
  CUSTOM_FONT : String
  CUSTOM_COLOR_SCHEME : String

/-- The response model (pydantic `FlyerOutput`, src/main.py lines 28-30). -/
structure FlyerOutput where
  image_generation_prompt : String
  image_editing_tasks : String

/-- The fully interpolated prompt template of `build_generation_prompt`
(src/main.py lines 35-45), before the `[:1800]` cut.  Python f-string
interpolation is string concatenation. -/
def generation_prompt_text (data : FlyerInput) : String :=
  "Design a full-page flyer background for '" ++ data.EVENT_TITLE ++ "', a " ++
  data.EVENT_TYPE ++ " in " ++ data.LOCALITY ++ ", " ++
  "expressed as an academic–minimalist composition aligned to the rule of thirds with an upper-left title zone " ++
  "and a lower-right information zone, using generous negative space and clean alignment. Employ soft, diffused " ++
  "cinematic lighting with subtle depth and gentle vignetting to guide focus. Style should harmonize with the typography " ++
  "character of " ++ data.CUSTOM_FONT ++ " and be driven by " ++ data.CUSTOM_COLOR_SCHEME ++
  " as the dominant palette, with refined accent tones " ++
  "and print-friendly gradients. Incorporate abstract campus or architectural silhouettes that nod to " ++
  data.LOCALITY ++ " as low-contrast, layered shapes " ++
  "so the central subject cutout remains clear. Include delicate geometric guide lines that echo the typographic rhythm, keeping textures " ++
  "fine-grained and paper-safe. Leave balanced margins for the headline, event details, and footer without clutter. Render at 8K, HDR, ultra-sharp, " ++
  "color-accurate, CMYK-aware, print-ready, with crisp edges and minimal banding; ensure the composition can accommodate the primary portrait asset while maintaining visual balance for both digital and physical outputs."

/-- `build_generation_prompt` (src/main.py lines 33-46): the interpolated
template truncated by Python slicing `prompt[:1800]`, a prefix cut at 1800
code points. -/
def build_generation_prompt (data : FlyerInput) : String :=
  (generation_prompt_text data).take 1800

/-- Python's `str.replace` scan over code points, with `fuel` the length of
the remaining input: at each position, if the (non-empty) pattern starts
here, emit the replacement and skip the pattern; otherwise emit the
current character and move one position on. -/
def pyReplaceAux (pat rep : List Char) : Nat → List Char → List Char
  | _, [] => []
  | 0, l => l
  | fuel+1, c :: cs =>
    if pat.isPrefixOf (c :: cs) then
      rep ++ pyReplaceAux pat rep fuel (cs.drop (pat.length - 1))
    else
      c :: pyReplaceAux pat rep fuel cs

/-- Python's `str.replace(pattern, replacement)`: replaces every
non-overlapping occurrence, left to right (for an empty pattern the
template in src/main.py never calls it; we return the string unchanged). -/
def pyReplace (s pat rep : String) : String :=
  if pat.data.isEmpty then s
  else ⟨pyReplaceAux pat.data rep.data s.data.length s.data⟩

/-- The 13-entry instruction list built by `build_editing_tasks`
(src/main.py lines 50-65), including the clamp
`count = max(0, int(data.SECONDARY_IMAGES_COUNT))`. -/
def editing_tasks_list (data : FlyerInput) : List String :=
  let count : Int := max 0 data.SECONDARY_IMAGES_COUNT
  [ pyReplace "1) Load the main image using [MAIN_IMAGE_ID]." "[MAIN_IMAGE_ID]" data.MAIN_IMAGE_ID,
    "2) Apply realistic facial enhancement (clarity, skin accuracy, natural texture).",
    "3) Remove and replace the background with the theme generated in Section 1.",
    "4) Apply global color harmonization using " ++ data.CUSTOM_COLOR_SCHEME ++ ".",
    "5) Enhance contrast, brightness, and vibrance across all assets.",
    "6) Position the main image as the primary focal point (center-left, rule of thirds).",
    "7) Insert " ++ toString count ++ " supplemental images using grid-balanced layout rules.",
    "8) Create a professional flyer layout (title zone, information zone, footer) with clean spacing.",
    "9) Add " ++ data.EVENT_TITLE ++ " using " ++ data.CUSTOM_FONT ++ ", ensuring high readability.",
    "10) Add placeholder areas for date, venue, and event details (admin fills later).",
    "11) Ensure all text maintains proper contrast against the background.",
    "12) Render the final output as a high-resolution, print-ready file (300 DPI minimum).",
    "13) Optimize final output for both digital display and physical printing." ]

/-- `build_editing_tasks` (src/main.py lines 49-66): the 13 instructions
joined by `"\n".join(tasks)`. -/
def build_editing_tasks (data : FlyerInput) : String :=
  String.intercalate "\n" (editing_tasks_list data)

/-- A JSON scalar as it can appear in a request body field. -/
inductive JsonValue where
  | str (s : String)
  | int (n : Int)
  | bool (b : Bool)
  | null
deriving DecidableEq

/-- A raw request body for `POST /api/generate_flyer_prompt`: each of the
seven declared fields either absent or carrying some JSON value. -/
structure RawRequest where
  EVENT_TITLE : Option JsonValue
  EVENT_TYPE : Option JsonValue
  LOCALITY : Option JsonValue
  MAIN_IMAGE_ID : Option JsonValue
  SECONDARY_IMAGES_COUNT : Option JsonValue
  CUSTOM_FONT : Option JsonValue
  CUSTOM_COLOR_SCHEME : Option JsonValue
deriving DecidableEq

/-- Pydantic validation of one required `str` field (`Field(...)` on a
`str`-typed field): absent or non-string values are rejected; any string,
the empty string included, is accepted. -/
def requireStr (name : String) (v : Option JsonValue) : Except String String :=
  match v with
  | none => .error (name ++ ": Field required")
  | some (.str s) => .ok s
  | some _ => .error (name ++ ": Input should be a valid string")

/-- Pydantic validation of the required integer field with `ge=0, le=12`
(src/main.py line 23). -/
def requireCount (name : String) (v : Option JsonValue) : Except String Int :=
  match v with
  | none => .error (name ++ ": Field required")
  | some (.int n) =>
    if n < 0 then .error (name ++ ": Input should be greater than or equal to 0")
    else if 12 < n then .error (name ++ ": Input should be less than or equal to 12")
    else .ok n
  | some _ => .error (name ++ ": Input should be a valid integer")

/-- Pydantic validation of a raw body against `FlyerInput`: every field
must be present with its declared type, and the count within [0, 12]. -/
def validateFlyerInput (r : RawRequest) : Except String FlyerInput := do
  let t ← requireStr "EVENT_TITLE" r.EVENT_TITLE
  let ty ← requireStr "EVENT_TYPE" r.EVENT_TYPE
  let loc ← requireStr "LOCALITY" r.LOCALITY
  let img ← requireStr "MAIN_IMAGE_ID" r.MAIN_IMAGE_ID
  let n ← requireCount "SECONDARY_IMAGES_COUNT" r.SECONDARY_IMAGES_COUNT
  let fnt ← requireStr "CUSTOM_FONT" r.CUSTOM_FONT
  let col ← requireStr "CUSTOM_COLOR_SCHEME" r.CUSTOM_COLOR_SCHEME
  pure ⟨t, ty, loc, img, n, fnt, col⟩

/-- The `POST /api/generate_flyer_prompt` handler (src/main.py lines
79-83): validation first, then both synthesizers on the validated
payload; a validation failure is surfaced as the error with no output. -/
def generate_flyer_prompt (r : RawRequest) : Except String FlyerOutput := do
  let payload ← validateFlyerInput r
  pure { image_generation_prompt := build_generation_prompt payload,
         image_editing_tasks := build_editing_tasks payload }

/-! ## Helper lemmas -/

/-- Evaluating the one `str.replace` call of `build_editing_tasks`: the
pattern `[MAIN_IMAGE_ID]` occurs exactly once in the step-1 template, so
the replacement is spliced in between the fixed prefix and the final
period. -/
theorem task1_eq (r : String) :
    pyReplace "1) Load the main image using [MAIN_IMAGE_ID]." "[MAIN_IMAGE_ID]" r =
      "1) Load the main image using " ++ r ++ "." := by
  simp [pyReplace, pyReplaceAux, String.ext_iff, String.data_append]

/-- A prefix of a list survives `take n` as long as it fits in `n`. -/
theorem prefix_take {α : Type} {l₁ l₂ : List α} (n : Nat) (h : l₁ <+: l₂)
    (hn : l₁.length ≤ n) : l₁ <+: l₂.take n := by
  obtain ⟨t, rfl⟩ := h
  rw [List.take_append_eq_append_take, List.take_of_length_le hn]
  exact List.prefix_append _ _

theorem requireStr_ok (name : String) (v : Option JsonValue) (s : String) :
    requireStr name v = .ok s ↔ v = some (.str s) := by
  rcases v with _ | (s' | n | b | _) <;> simp [requireStr]

theorem requireCount_ok (name : String) (v : Option JsonValue) (n : Int) :
    requireCount name v = .ok n ↔ v = some (.int n) ∧ 0 ≤ n ∧ n ≤ 12 := by
  rcases v with _ | (s' | n' | b | _) <;> simp [requireCount]
  constructor
  · intro h
    by_cases h1 : n' < 0
    · simp [h1] at h
    · by_cases h2 : 12 < n'
      · simp [h1, h2] at h
      · simp [h1, h2] at h
        exact ⟨by omega, by omega, by omega⟩
  · rintro ⟨rfl, h0, h12⟩
    rw [if_neg (by omega), if_neg (by omega)]

theorem except_bind_ok {ε α β : Type} (x : Except ε α) (f : α → Except ε β) (b : β) :
    (x >>= f) = .ok b ↔ ∃ a, x = .ok a ∧ f a = .ok b := by
  cases x <;> simp [Bind.bind, Except.bind]

/-- Characterization of successful validation: exactly the bodies in which
every text field is present as a string (possibly empty), and the count is
present as an integer within [0, 12]. -/
theorem validate_ok (r : RawRequest) (d : FlyerInput) :
    validateFlyerInput r = .ok d ↔
      r = ⟨some (.str d.EVENT_TITLE), some (.str d.EVENT_TYPE), some (.str d.LOCALITY),
           some (.str d.MAIN_IMAGE_ID), some (.int d.SECONDARY_IMAGES_COUNT),
           some (.str d.CUSTOM_FONT), some (.str d.CUSTOM_COLOR_SCHEME)⟩ ∧
      0 ≤ d.SECONDARY_IMAGES_COUNT ∧ d.SECONDARY_IMAGES_COUNT ≤ 12 := by
  obtain ⟨f1, f2, f3, f4, f5, f6, f7⟩ := r
  obtain ⟨t, ty, loc, img, n, fnt, col⟩ := d
  simp only [validateFlyerInput, except_bind_ok, requireStr_ok, requireCount_ok,
    pure, Except.pure, Except.ok.injEq, FlyerInput.mk.injEq, RawRequest.mk.injEq]
  constructor
  · rintro ⟨a1, h1, a2, h2, a3, h3, a4, h4, a5, ⟨h5, hc0, hc12⟩, a6, h6, a7, h7,
      rfl, rfl, rfl, rfl, rfl, rfl, rfl⟩
    exact ⟨⟨h1, h2, h3, h4, h5, h6, h7⟩, hc0, hc12⟩
  · rintro ⟨⟨h1, h2, h3, h4, h5, h6, h7⟩, hc0, hc12⟩
    exact ⟨t, h1, ty, h2, loc, h3, img, h4, n, ⟨h5, hc0, hc12⟩, fnt, h6, col, h7,
      rfl, rfl, rfl, rfl, rfl, rfl, rfl⟩

/-! ## Claim theorems -/

/-- C1: for every request, `build_generation_prompt` returns at most 1800
characters, and the returned string is a prefix of the fully interpolated
template (the truncation is a simple prefix cut). -/
theorem generation_prompt_bounded_prefix (d : FlyerInput) :
    (build_generation_prompt d).length ≤ 1800 ∧
    (build_generation_prompt d).data <+: (generation_prompt_text d).data := by
  constructor
  · simp [build_generation_prompt, String.take_eq, List.length_take]
  · simp only [build_generation_prompt, String.data_take]
    exact List.take_prefix _ _

/-- C2: `build_editing_tasks` joins with single newlines a task list of
exactly 13 entries; entry `i` starts with the numeral `i+1` followed by a
closing parenthesis, for every input; and an entry that substitutes no
field (all but steps 1, 4, 7 and 9) is the same string for all inputs, so
the step order is fixed and only the substituted values vary. -/
theorem editing_tasks_thirteen_steps (d : FlyerInput) :
    build_editing_tasks d = String.intercalate "\n" (editing_tasks_list d)
  ∧ (editing_tasks_list d).length = 13
  ∧ (∀ i : Nat, i < 13 →
      (toString (i + 1) ++ ")").data <+: ((editing_tasks_list d).getD i "").data)
  ∧ (∀ d' : FlyerInput, ∀ i : Nat, i < 13 → i ≠ 0 → i ≠ 3 → i ≠ 6 → i ≠ 8 →
      (editing_tasks_list d).getD i "" = (editing_tasks_list d').getD i "") := by
  refine ⟨rfl, by simp [editing_tasks_list], ?_, ?_⟩
  · intro i hi
    interval_cases i <;> exact ⟨_, rfl⟩
  · intro d' i hi h0 h3 h6 h8
    interval_cases i <;> first | rfl | simp_all

/-- Witness for C2 at a concrete request: step 10 (index 9) of the list
starts with the numeral 10, and step 11 is input-independent. -/
theorem editing_tasks_thirteen_steps_witness :
    ((toString (9 + 1) ++ ")").data <+:
      ((editing_tasks_list ⟨"Gala", "Party", "Pune", "IMG-7", 4, "Arial", "Red"⟩).getD 9 "").data)
  ∧ (editing_tasks_list ⟨"Gala", "Party", "Pune", "IMG-7", 4, "Arial", "Red"⟩).getD 10 "" =
      (editing_tasks_list ⟨"B", "C", "D", "E", 0, "F", "G"⟩).getD 10 "" :=
  ⟨(editing_tasks_thirteen_steps ⟨"Gala", "Party", "Pune", "IMG-7", 4, "Arial", "Red"⟩).2.2.1 9
      (by norm_num),
   (editing_tasks_thirteen_steps ⟨"Gala", "Party", "Pune", "IMG-7", 4, "Arial", "Red"⟩).2.2.2
      ⟨"B", "C", "D", "E", 0, "F", "G"⟩ 10 (by norm_num) (by norm_num) (by norm_num)
      (by norm_num) (by norm_num)⟩

/-- C4: on the input with title "Spring Gala", font "Garamond", color
scheme "Navy/Gold", main image id "IMG-42" and count 3 (event type and
locality arbitrary), step 1 contains "IMG-42", step 4 contains
"Navy/Gold", step 7 contains "3", and step 9 contains both "Spring Gala"
and "Garamond". -/
theorem editing_tasks_substitution_correct (ty loc : String) :
    let d : FlyerInput := ⟨"Spring Gala", ty, loc, "IMG-42", 3, "Garamond", "Navy/Gold"⟩
    ("IMG-42").data <:+: ((editing_tasks_list d).getD 0 "").data ∧
    ("Navy/Gold").data <:+: ((editing_tasks_list d).getD 3 "").data ∧
    ("3").data <:+: ((editing_tasks_list d).getD 6 "").data ∧
    ("Spring Gala").data <:+: ((editing_tasks_list d).getD 8 "").data ∧
    ("Garamond").data <:+: ((editing_tasks_list d).getD 8 "").data := by
  refine ⟨?_, ?_, ?_, ?_, ?_⟩
  · show ("IMG-42").data <:+: ("1) Load the main image using IMG-42.").data
    decide
  · show ("Navy/Gold").data <:+: ("4) Apply global color harmonization using Navy/Gold.").data
    decide
  · show ("3").data <:+: ("7) Insert 3 supplemental images using grid-balanced layout rules.").data
    decide
  · show ("Spring Gala").data <:+: ("9) Add Spring Gala using Garamond, ensuring high readability.").data
    decide
  · show ("Garamond").data <:+: ("9) Add Spring Gala using Garamond, ensuring high readability.").data
    decide

/-- C5: the synthesizers are deterministic pure functions of the visible
request fields: any two requests that agree on all seven fields receive
identical generation prompts and identical editing-task strings. -/
theorem synthesis_deterministic (d d' : FlyerInput)
    (h1 : d.EVENT_TITLE = d'.EVENT_TITLE) (h2 : d.EVENT_TYPE = d'.EVENT_TYPE)
    (h3 : d.LOCALITY = d'.LOCALITY) (h4 : d.MAIN_IMAGE_ID = d'.MAIN_IMAGE_ID)
    (h5 : d.SECONDARY_IMAGES_COUNT = d'.SECONDARY_IMAGES_COUNT)
    (h6 : d.CUSTOM_FONT = d'.CUSTOM_FONT)
    (h7 : d.CUSTOM_COLOR_SCHEME = d'.CUSTOM_COLOR_SCHEME) :
    build_generation_prompt d = build_generation_prompt d' ∧
    build_editing_tasks d = build_editing_tasks d' := by
  obtain ⟨t, ty, loc, img, n, fnt, col⟩ := d
  obtain ⟨t', ty', loc', img', n', fnt', col'⟩ := d'
  simp only at h1 h2 h3 h4 h5 h6 h7
  subst h1 h2 h3 h4 h5 h6 h7
  exact ⟨rfl, rfl⟩

/-- Witness for C5: two identical concrete requests yield identical
outputs. -/
theorem synthesis_deterministic_witness :
    build_generation_prompt ⟨"T", "Ty", "L", "M", 2, "F", "C"⟩ =
      build_generation_prompt ⟨"T", "Ty", "L", "M", 2, "F", "C"⟩ ∧
    build_editing_tasks ⟨"T", "Ty", "L", "M", 2, "F", "C"⟩ =
      build_editing_tasks ⟨"T", "Ty", "L", "M", 2, "F", "C"⟩ :=
  synthesis_deterministic ⟨"T", "Ty", "L", "M", 2, "F", "C"⟩ ⟨"T", "Ty", "L", "M", 2, "F", "C"⟩
    rfl rfl rfl rfl rfl rfl rfl

/-- C6: step 7 always inserts `max 0 count`; in particular a negative
count reaching the synthesizer produces the digit 0 in step 7. -/
theorem editing_tasks_count_clamped (d : FlyerInput) :
    (editing_tasks_list d).getD 6 "" =
      "7) Insert " ++ toString (max 0 d.SECONDARY_IMAGES_COUNT) ++
        " supplemental images using grid-balanced layout rules."
  ∧ (d.SECONDARY_IMAGES_COUNT < 0 →
      (editing_tasks_list d).getD 6 "" =
        "7) Insert 0 supplemental images using grid-balanced layout rules.") := by
  refine ⟨rfl, ?_⟩
  intro h
  have hmax : max 0 d.SECONDARY_IMAGES_COUNT = 0 := max_eq_left (le_of_lt h)
  simp only [editing_tasks_list, hmax]
  rfl

/-- Witness for C6: a request with count -5 gets "0" in step 7. -/
theorem editing_tasks_count_clamped_witness :
    (editing_tasks_list ⟨"T", "Ty", "L", "M", -5, "F", "C"⟩).getD 6 "" =
      "7) Insert 0 supplemental images using grid-balanced layout rules." :=
  (editing_tasks_count_clamped ⟨"T", "Ty", "L", "M", -5, "F", "C"⟩).2 (by norm_num)

/-- A successful validation makes the endpoint return the full response
built from both synthesizers. -/
theorem handler_ok_of_valid (r : RawRequest) (d : FlyerInput)
    (h : validateFlyerInput r = .ok d) :
    generate_flyer_prompt r =
      .ok { image_generation_prompt := build_generation_prompt d,
            image_editing_tasks := build_editing_tasks d } := by
  simp [generate_flyer_prompt, Bind.bind, Except.bind, h, pure, Except.pure]

/-- A failed validation is surfaced unchanged by the endpoint. -/
theorem handler_err_of_invalid (r : RawRequest) (e : String)
    (h : validateFlyerInput r = .error e) :
    generate_flyer_prompt r = .error e := by
  simp [generate_flyer_prompt, Bind.bind, Except.bind, h]

/-- C3: with all text fields present as strings, a request with count in
[0, 12] (0 and 12 included) is accepted and synthesis runs, producing the
full response; any count outside [0, 12] (-1 and 13 included) is rejected
with a validation error and no response is produced. -/
theorem count_boundaries (t ty loc img fnt col : String) (n : Int) :
    ((0 ≤ n ∧ n ≤ 12) →
      generate_flyer_prompt ⟨some (.str t), some (.str ty), some (.str loc), some (.str img),
          some (.int n), some (.str fnt), some (.str col)⟩ =
        .ok { image_generation_prompt := build_generation_prompt ⟨t, ty, loc, img, n, fnt, col⟩,
              image_editing_tasks := build_editing_tasks ⟨t, ty, loc, img, n, fnt, col⟩ })
  ∧ ((n < 0 ∨ 12 < n) →
      ∃ e, generate_flyer_prompt ⟨some (.str t), some (.str ty), some (.str loc), some (.str img),
          some (.int n), some (.str fnt), some (.str col)⟩ = .error e) := by
  constructor
  · rintro ⟨h0, h12⟩
    exact handler_ok_of_valid _ _ ((validate_ok _ ⟨t, ty, loc, img, n, fnt, col⟩).mpr ⟨rfl, h0, h12⟩)
  · intro hout
    cases hv : validateFlyerInput ⟨some (.str t), some (.str ty), some (.str loc), some (.str img),
        some (.int n), some (.str fnt), some (.str col)⟩ with
    | error e => exact ⟨e, handler_err_of_invalid _ _ hv⟩
    | ok d =>
      exfalso
      obtain ⟨hr, h0, h12⟩ := (validate_ok _ _).mp hv
      have : n = d.SECONDARY_IMAGES_COUNT := by
        have := congrArg RawRequest.SECONDARY_IMAGES_COUNT hr
        simpa using this
      omega

/-- Witness for C3 at the four boundary counts 0, 12, -1 and 13. -/
theorem count_boundaries_witness :
    (generate_flyer_prompt ⟨some (.str "T"), some (.str "Ty"), some (.str "L"), some (.str "M"),
        some (.int 0), some (.str "F"), some (.str "C")⟩ =
      .ok { image_generation_prompt := build_generation_prompt ⟨"T", "Ty", "L", "M", 0, "F", "C"⟩,
            image_editing_tasks := build_editing_tasks ⟨"T", "Ty", "L", "M", 0, "F", "C"⟩ })
  ∧ (generate_flyer_prompt ⟨some (.str "T"), some (.str "Ty"), some (.str "L"), some (.str "M"),
        some (.int 12), some (.str "F"), some (.str "C")⟩ =
      .ok { image_generation_prompt := build_generation_prompt ⟨"T", "Ty", "L", "M", 12, "F", "C"⟩,
            image_editing_tasks := build_editing_tasks ⟨"T", "Ty", "L", "M", 12, "F", "C"⟩ })
  ∧ (∃ e, generate_flyer_prompt ⟨some (.str "T"), some (.str "Ty"), some (.str "L"), some (.str "M"),
        some (.int (-1)), some (.str "F"), some (.str "C")⟩ = .error e)
  ∧ (∃ e, generate_flyer_prompt ⟨some (.str "T"), some (.str "Ty"), some (.str "L"), some (.str "M"),
        some (.int 13), some (.str "F"), some (.str "C")⟩ = .error e) :=
  ⟨(count_boundaries "T" "Ty" "L" "M" "F" "C" 0).1 ⟨by norm_num, by norm_num⟩,
   (count_boundaries "T" "Ty" "L" "M" "F" "C" 12).1 ⟨by norm_num, by norm_num⟩,
   (count_boundaries "T" "Ty" "L" "M" "F" "C" (-1)).2 (Or.inl (by norm_num)),
   (count_boundaries "T" "Ty" "L" "M" "F" "C" 13).2 (Or.inr (by norm_num))⟩

/-- C7: validation succeeds exactly on the requests in which every text
field is present as a string and the count is present as an integer in
[0, 12] — so a request is rejected only for an absent field, a mistyped
field, or an out-of-range count; text fields equal to the empty string
are accepted, and on the all-empty-strings request synthesis runs. -/
theorem validation_accepts_iff (r : RawRequest) :
    ((∃ d, validateFlyerInput r = .ok d) ↔
      (∃ t ty loc img fnt col, ∃ n : Int,
        r = ⟨some (.str t), some (.str ty), some (.str loc), some (.str img),
             some (.int n), some (.str fnt), some (.str col)⟩ ∧ 0 ≤ n ∧ n ≤ 12))
  ∧ (∃ out, generate_flyer_prompt ⟨some (.str ""), some (.str ""), some (.str ""),
        some (.str ""), some (.int 0), some (.str ""), some (.str "")⟩ = .ok out) := by
  constructor
  · constructor
    · rintro ⟨d, hd⟩
      obtain ⟨hr, h0, h12⟩ := (validate_ok _ _).mp hd
      exact ⟨d.EVENT_TITLE, d.EVENT_TYPE, d.LOCALITY, d.MAIN_IMAGE_ID, d.CUSTOM_FONT,
        d.CUSTOM_COLOR_SCHEME, d.SECONDARY_IMAGES_COUNT, hr, h0, h12⟩
    · rintro ⟨t, ty, loc, img, fnt, col, n, rfl, h0, h12⟩
      exact ⟨⟨t, ty, loc, img, n, fnt, col⟩, (validate_ok _ _).mpr ⟨rfl, h0, h12⟩⟩
  · exact ⟨_, handler_ok_of_valid _ ⟨"", "", "", "", 0, "", ""⟩
      ((validate_ok _ _).mpr ⟨rfl, by norm_num, by norm_num⟩)⟩

/-- Witness for C7: the all-empty-strings request with count 5 is
accepted by validation. -/
theorem validation_accepts_iff_witness :
    ∃ d, validateFlyerInput ⟨some (.str ""), some (.str ""), some (.str ""), some (.str ""),
        some (.int 5), some (.str ""), some (.str "")⟩ = .ok d :=
  (validation_accepts_iff _).1.mpr
    ⟨"", "", "", "", "", "", 5, rfl, by norm_num, by norm_num⟩

/-- C8: the endpoint either validates the body and returns the complete
response with both fields built by the synthesizers, or rejects it with
the validation error before synthesis, never a mixture or a partial
result. -/
theorem handler_complete_or_error (r : RawRequest) :
    (∃ d, validateFlyerInput r = .ok d ∧
      generate_flyer_prompt r =
        .ok { image_generation_prompt := build_generation_prompt d,
              image_editing_tasks := build_editing_tasks d })
  ∨ (∃ e, validateFlyerInput r = .error e ∧ generate_flyer_prompt r = .error e) := by
  cases hv : validateFlyerInput r with
  | ok d => exact Or.inl ⟨d, rfl, handler_ok_of_valid _ _ hv⟩
  | error e => exact Or.inr ⟨e, rfl, handler_err_of_invalid _ _ hv⟩

theorem digitChar_ne_newline (n : Nat) : Nat.digitChar n ≠ '\n' := by
  by_cases h : n < 16
  · interval_cases n <;> decide
  · show ¬ (Nat.digitChar n = '\n')
    simp only [Nat.digitChar,
      show n ≠ 0 by omega, show n ≠ 1 by omega, show n ≠ 2 by omega, show n ≠ 3 by omega,
      show n ≠ 4 by omega, show n ≠ 5 by omega, show n ≠ 6 by omega, show n ≠ 7 by omega,
      show n ≠ 8 by omega, show n ≠ 9 by omega, show n ≠ 10 by omega, show n ≠ 11 by omega,
      show n ≠ 12 by omega, show n ≠ 13 by omega, show n ≠ 14 by omega, show n ≠ 15 by omega,
      if_false]
    decide

theorem toDigitsCore_ne_newline (b : Nat) :
    ∀ (fuel n : Nat) (acc : List Char), (∀ c ∈ acc, c ≠ '\n') →
      ∀ c ∈ Nat.toDigitsCore b fuel n acc, c ≠ '\n' := by
  intro fuel
  induction fuel with
  | zero => intro n acc hacc c hc; exact hacc c hc
  | succ fuel ih =>
    intro n acc hacc c hc
    rw [Nat.toDigitsCore] at hc
    by_cases hz : n / b = 0
    · rw [if_pos hz] at hc
      rcases List.mem_cons.mp hc with hc | hc
      · exact hc ▸ digitChar_ne_newline _
      · exact hacc c hc
    · rw [if_neg hz] at hc
      refine ih _ _ ?_ c hc
      intro c' hc'
      rcases List.mem_cons.mp hc' with hc' | hc'
      · exact hc' ▸ digitChar_ne_newline _
      · exact hacc c' hc'

theorem repr_count_newline (m : Nat) : (Nat.repr m).data.count '\n' = 0 := by
  apply List.count_eq_zero.mpr
  intro hmem
  exact toDigitsCore_ne_newline 10 (m+1) m [] (by simp) '\n' hmem rfl

theorem toString_max_count_newline (n : Int) :
    (toString (max 0 n)).data.count '\n' = 0 := by
  obtain ⟨m, hm⟩ : ∃ m : Nat, max 0 n = Int.ofNat m :=
    ⟨(max 0 n).toNat, (Int.toNat_of_nonneg (le_max_left 0 n)).symm⟩
  rw [hm]
  exact repr_count_newline m

def splitNewlines : List Char → List (List Char)
  | [] => [[]]
  | c :: cs =>
    match splitNewlines cs with
    | [] => [[c]]
    | l :: ls => if c = '\n' then [] :: l :: ls else (c :: l) :: ls

theorem splitNewlines_length (l : List Char) :
    (splitNewlines l).length = l.count '\n' + 1 := by
  induction l with
  | nil => rfl
  | cons c cs ih =>
    rcases hs : splitNewlines cs with _ | ⟨p, ps⟩
    · rw [hs] at ih
      simp at ih
    · rw [hs] at ih
      by_cases hc : c = '\n'
      · subst hc
        simp only [splitNewlines, hs, if_pos rfl, List.length_cons, List.count_cons]
        simp only [List.length_cons] at ih
        simp
        omega
      · simp only [splitNewlines, hs, if_neg hc, List.length_cons, List.count_cons]
        simp only [List.length_cons] at ih
        have hb : (c == '\n') = false := by simp [hc]
        rw [hb]
        simp
        omega

def lineCount (s : String) : Nat := (splitNewlines s.data).length

theorem count_newline_tasks (d : FlyerInput) :
    (build_editing_tasks d).data.count '\n' =
      12 + d.MAIN_IMAGE_ID.data.count '\n' + d.CUSTOM_COLOR_SCHEME.data.count '\n' +
        d.EVENT_TITLE.data.count '\n' + d.CUSTOM_FONT.data.count '\n' := by
  have hts := toString_max_count_newline d.SECONDARY_IMAGES_COUNT
  have hnl : ("\n").data.count '\n' = 1 := by decide
  have l1a : ("1) Load the main image using ").data.count '\n' = 0 := by decide
  have l1b : (".").data.count '\n' = 0 := by decide
  have l2 : ("2) Apply realistic facial enhancement (clarity, skin accuracy, natural texture).").data.count '\n' = 0 := by decide
  have l3 : ("3) Remove and replace the background with the theme generated in Section 1.").data.count '\n' = 0 := by decide
  have l4a : ("4) Apply global color harmonization using ").data.count '\n' = 0 := by decide
  have l5 : ("5) Enhance contrast, brightness, and vibrance across all assets.").data.count '\n' = 0 := by decide
  have l6 : ("6) Position the main image as the primary focal point (center-left, rule of thirds).").data.count '\n' = 0 := by decide
  have l7a : ("7) Insert ").data.count '\n' = 0 := by decide
  have l7b : (" supplemental images using grid-balanced layout rules.").data.count '\n' = 0 := by decide
  have l8 : ("8) Create a professional flyer layout (title zone, information zone, footer) with clean spacing.").data.count '\n' = 0 := by decide
  have l9a : ("9) Add ").data.count '\n' = 0 := by decide
  have l9b : (" using ").data.count '\n' = 0 := by decide
  have l9c : (", ensuring high readability.").data.count '\n' = 0 := by decide
  have l10 : ("10) Add placeholder areas for date, venue, and event details (admin fills later).").data.count '\n' = 0 := by decide
  have l11 : ("11) Ensure all text maintains proper contrast against the background.").data.count '\n' = 0 := by decide
  have l12 : ("12) Render the final output as a high-resolution, print-ready file (300 DPI minimum).").data.count '\n' = 0 := by decide
  have l13 : ("13) Optimize final output for both digital display and physical printing.").data.count '\n' = 0 := by decide
  simp only [build_editing_tasks, editing_tasks_list, String.intercalate,
    String.intercalate.go, task1_eq]
  simp only [String.data_append, List.count_append]
  rw [hts, hnl, l1a, l1b, l2, l3, l4a, l5, l6, l7a, l7b, l8, l9a, l9b, l9c, l10, l11, l12, l13]
  omega

/-- C10: the editing-task output has exactly 12 newline characters (and
hence splits into exactly 13 lines) precisely when none of the four
substituted text values contains a newline; a title containing a newline
makes the output split into more than 13 lines. -/
theorem editing_tasks_newline_sensitivity (d : FlyerInput) :
    ((build_editing_tasks d).data.count '\n' = 12 ↔
      d.MAIN_IMAGE_ID.data.count '\n' = 0 ∧ d.CUSTOM_COLOR_SCHEME.data.count '\n' = 0 ∧
      d.EVENT_TITLE.data.count '\n' = 0 ∧ d.CUSTOM_FONT.data.count '\n' = 0)
  ∧ ('\n' ∈ d.EVENT_TITLE.data → 13 < lineCount (build_editing_tasks d)) := by
  have hc := count_newline_tasks d
  constructor
  · constructor
    · intro h
      rw [hc] at h
      refine ⟨by omega, by omega, by omega, by omega⟩
    · rintro ⟨h1, h2, h3, h4⟩
      rw [hc, h1, h2, h3, h4]
  · intro hmem
    have h1 : 1 ≤ d.EVENT_TITLE.data.count '\n' := List.one_le_count_iff.mpr hmem
    have h2 : lineCount (build_editing_tasks d) =
        (build_editing_tasks d).data.count '\n' + 1 := splitNewlines_length _
    omega

/-- Witness for C10: a title consisting of one newline character makes
the output split into 14 lines, and the count of newlines is 13, not 12. -/
theorem editing_tasks_newline_sensitivity_witness :
    ¬ ((build_editing_tasks ⟨"\n", "Ty", "L", "M", 1, "F", "C"⟩).data.count '\n' = 12)
  ∧ 13 < lineCount (build_editing_tasks ⟨"\n", "Ty", "L", "M", 1, "F", "C"⟩) :=
  ⟨fun h => by
      have := ((editing_tasks_newline_sensitivity ⟨"\n", "Ty", "L", "M", 1, "F", "C"⟩).1.mp h).2.2.1
      exact absurd this (by decide),
   (editing_tasks_newline_sensitivity ⟨"\n", "Ty", "L", "M", 1, "F", "C"⟩).2 (by decide)⟩

/-- The part of the generation-prompt template that follows the event
title (src/main.py lines 36-44 after the first interpolation), used to
reason about what the 1800-character cut can remove. -/
def generation_prompt_tail (data : FlyerInput) : String :=
  "', a " ++ data.EVENT_TYPE ++ " in " ++ data.LOCALITY ++ ", " ++
  "expressed as an academic–minimalist composition aligned to the rule of thirds with an upper-left title zone " ++
  "and a lower-right information zone, using generous negative space and clean alignment. Employ soft, diffused " ++
  "cinematic lighting with subtle depth and gentle vignetting to guide focus. Style should harmonize with the typography " ++
  "character of " ++ data.CUSTOM_FONT ++ " and be driven by " ++ data.CUSTOM_COLOR_SCHEME ++
  " as the dominant palette, with refined accent tones " ++
  "and print-friendly gradients. Incorporate abstract campus or architectural silhouettes that nod to " ++
  data.LOCALITY ++ " as low-contrast, layered shapes " ++
  "so the central subject cutout remains clear. Include delicate geometric guide lines that echo the typographic rhythm, keeping textures " ++
  "fine-grained and paper-safe. Leave balanced margins for the headline, event details, and footer without clutter. Render at 8K, HDR, ultra-sharp, " ++
  "color-accurate, CMYK-aware, print-ready, with crisp edges and minimal banding; ensure the composition can accommodate the primary portrait asset while maintaining visual balance for both digital and physical outputs."

set_option maxRecDepth 4000 in
/-- C9 (amended): the prompt always begins with the fixed text "Design a
full-page flyer background for '", and it begins with that fixed text
followed by the full event title whenever fixed text plus title fit
within the 1800-character cap; a longer title is itself truncated. -/
theorem generation_prompt_starts_with_title (d : FlyerInput) :
    ("Design a full-page flyer background for '").data <+: (build_generation_prompt d).data
  ∧ (("Design a full-page flyer background for '" ++ d.EVENT_TITLE).length ≤ 1800 →
      ("Design a full-page flyer background for '" ++ d.EVENT_TITLE).data <+:
        (build_generation_prompt d).data) := by
  have hsplit : generation_prompt_text d =
      ("Design a full-page flyer background for '" ++ d.EVENT_TITLE) ++
        generation_prompt_tail d := by
    apply String.ext
    simp [generation_prompt_text, generation_prompt_tail, String.data_append, List.append_assoc]
  constructor
  · simp only [build_generation_prompt, String.data_take, hsplit, String.data_append]
    apply prefix_take
    · exact (List.prefix_append _ _).trans
        ⟨_, (List.append_assoc _ _ _).symm⟩
    · decide
  · intro hlen
    simp only [build_generation_prompt, String.data_take, hsplit, String.data_append]
    apply prefix_take
    · exact List.prefix_append _ _
    · rw [String.length_append] at hlen
      rw [List.length_append, String.length_data, String.length_data]
      exact hlen

/-- Witness for C9 (amended) at a concrete short-titled request. -/
theorem generation_prompt_starts_with_title_witness :
    ("Design a full-page flyer background for '" ++ "Spring Gala").data <+:
      (build_generation_prompt ⟨"Spring Gala", "Concert", "Pune", "IMG-1", 2, "Arial", "Blue"⟩).data :=
  (generation_prompt_starts_with_title ⟨"Spring Gala", "Concert", "Pune", "IMG-1", 2, "Arial", "Blue"⟩).2
    (by decide)

/-- Counterexample to C9 as stated: for a title of 1800 characters the
1800-character cut truncates the title itself, so the output is not the
fixed text followed by the full event title. -/
theorem generation_prompt_title_prefix_cex :
    ¬ (("Design a full-page flyer background for '" ++ String.mk (List.replicate 1800 'a')).data <+:
        (build_generation_prompt
          ⟨String.mk (List.replicate 1800 'a'), "Concert", "Pune", "IMG-1", 0, "Arial", "Blue"⟩).data) := by
  intro h
  have hle := h.length_le
  have hL : (("Design a full-page flyer background for '" ++
      String.mk (List.replicate 1800 'a')).data).length = 1841 := by
    simp only [String.data_append, List.length_append]
    have h41 : ("Design a full-page flyer background for '").data.length = 41 := by decide
    rw [h41, List.length_replicate]
  have hR : ((build_generation_prompt
      ⟨String.mk (List.replicate 1800 'a'), "Concert", "Pune", "IMG-1", 0, "Arial", "Blue"⟩).data).length ≤ 1800 := by
    simp only [build_generation_prompt, String.data_take, List.length_take]
    exact Nat.min_le_left _ _
  rw [hL] at hle
  omega
